import Mathlib

/-!
Verification of the ul-temp-sensor MCU firmware core logic: the adaptive
power-tier scheduler (`adaptive_scheduler.c`), the RV-3028 real-time-clock
driver (`rv3028.c`), and the BME280 sensor driver (`bme280.c`).

The C code is shallowly embedded:
* machine integers become `Nat`/`Int` with explicit wrapping (`wrap32`,
  `toU32`, `toI16`, `toI8`) at the points where the C types wrap;
* the C arithmetic right shift of a signed 32-bit value becomes Euclidean
  division by a power of two (`asr`), which is floor division for the
  positive divisors used here;
* I2C bus traffic becomes an oracle `Bus : Nat → BusStep` giving the
  outcome (error code and returned bytes) of the n-th bus transaction
  performed, together with an explicit transaction counter threaded
  through each driver function.
-/

/-! ## Machine-integer helpers -/

/-- Two's-complement wrap of an integer into the signed 32-bit range,
modelling C `int32_t` arithmetic results. -/
def wrap32 (x : Int) : Int := (x + 2147483648) % 4294967296 - 2147483648

/-- Reduction of an integer into the unsigned 32-bit range, modelling a C
cast to `uint32_t` (Lean `%` on `Int` is Euclidean, so the result is in
`[0, 2^32)`). -/
def toU32 (x : Int) : Int := x % 4294967296

/-- Arithmetic shift right of a (conceptually signed 32-bit) value, the
semantics of C `>>` on `int32_t` on the target: floor division by `2^n`.
Lean's Euclidean `/` on `Int` is floor division for positive divisors. -/
def asr (x : Int) (n : Nat) : Int := x / 2 ^ n

/-- Reinterpretation of an unsigned 16-bit value as C `int16_t`. -/
def toI16 (n : Nat) : Int :=
  if n % 65536 < 32768 then (n % 65536 : Nat) else (n % 65536 : Nat) - 65536

/-- Reinterpretation of an unsigned 8-bit value as C `int8_t`. -/
def toI8 (n : Nat) : Int :=
  if n % 256 < 128 then (n % 256 : Nat) else (n % 256 : Nat) - 256

/-! ## Bus oracle

Each I2C transaction (`i2c_write_read` or `i2c_write` in the C sources) is
one consumed step of the oracle: `err` is the transaction's return code
(`0` on success) and `data` the bytes it returned (for reads). -/

/-- Outcome of one I2C bus transaction. -/
structure BusStep where
  err : Int
  data : List Nat
deriving DecidableEq

/-- A bus oracle: the outcome of the n-th bus transaction. -/
abbrev Bus := Nat → BusStep

/-- The i-th byte of a transaction's returned data (reads past the end of
the returned buffer yield 0; each byte is reduced to `uint8_t` range). -/
def byteAt (l : List Nat) (i : Nat) : Nat := l.getD i 0 % 256

/-! ## Adaptive scheduler (`adaptive_scheduler.c` / `adaptive_scheduler.h`) -/

/-- The `power_tier_t` enumeration from `adaptive_scheduler.h`. -/
inductive PowerTier
  | normal
  | conserve
  | reserve
  | survival
deriving DecidableEq

/-- The integer value of each `power_tier_t` enumerator
(`POWER_TIER_NORMAL = 0` … `POWER_TIER_SURVIVAL = 3`). -/
def PowerTier.ord : PowerTier → Nat
  | .normal => 0
  | .conserve => 1
  | .reserve => 2
  | .survival => 3

/-- The naive tier ladder at the top of `adaptive_scheduler_get_tier`
(thresholds `BATTERY_THRESHOLD_NORMAL_HIGH = 3800`,
`BATTERY_THRESHOLD_CONSERVE_HIGH = 3600`,
`BATTERY_THRESHOLD_RESERVE_HIGH = 3400` from `adaptive_scheduler.h`). -/
def naive_tier (battery_mv : Nat) : PowerTier :=
  if battery_mv ≥ 3800 then .normal
  else if battery_mv ≥ 3600 then .conserve
  else if battery_mv ≥ 3400 then .reserve
  else .survival

/-- The hysteresis logic of `adaptive_scheduler_get_tier`
(`adaptive_scheduler.c` lines 40–89) as a function of the battery reading
and the value of the static `current_tier` variable; the result is both
the returned tier and the new value of `current_tier`.  Low thresholds
`BATTERY_THRESHOLD_NORMAL_LOW = 3600`, `BATTERY_THRESHOLD_CONSERVE_LOW =
3400`, `BATTERY_THRESHOLD_RESERVE_LOW = 3200`. -/
def adaptive_scheduler_get_tier (battery_mv : Nat) (cur : PowerTier) : PowerTier :=
  if naive_tier battery_mv = cur then cur
  else if cur.ord < (naive_tier battery_mv).ord then
    -- moving to a higher-numbered (more conservative) tier: low thresholds
    if battery_mv ≤ 3600 ∧ cur = .normal then .conserve
    else if battery_mv ≤ 3400 ∧ cur = .conserve then .reserve
    else if battery_mv ≤ 3200 ∧ cur = .reserve then .survival
    else cur
  else
    -- moving to a lower-numbered tier (recovery): high thresholds
    if battery_mv ≥ 3800 ∧ cur = .conserve then .normal
    else if battery_mv ≥ 3600 ∧ cur = .reserve then .conserve
    else if battery_mv ≥ 3400 ∧ cur = .survival then .reserve
    else cur

/-- The mutable module state of `adaptive_scheduler.c`: the static
`current_tier` variable (line 10). -/
structure SchedulerState where
  current_tier : PowerTier
deriving DecidableEq

/-- A call to `adaptive_scheduler_get_tier` including its effect on the
static `current_tier` variable (lines 83–88 of `adaptive_scheduler.c`):
returns the function's return value and the post-call module state. -/
def adaptive_scheduler_get_tier_call (battery_mv : Nat) (st : SchedulerState) :
    PowerTier × SchedulerState :=
  let new_tier := adaptive_scheduler_get_tier battery_mv st.current_tier
  let st2 := if new_tier ≠ st.current_tier then { current_tier := new_tier } else st
  (st2.current_tier, st2)

/-! ## Sanity checks for the scheduler embedding -/

example : adaptive_scheduler_get_tier 4000 .normal = .normal := by decide
example : adaptive_scheduler_get_tier 3700 .normal = .normal := by decide
example : adaptive_scheduler_get_tier 3550 .normal = .conserve := by decide
example : adaptive_scheduler_get_tier 3300 .conserve = .reserve := by decide
example : adaptive_scheduler_get_tier 3650 .reserve = .conserve := by decide

/-! ## RV-3028 real-time clock driver (`rv3028.c`) -/

/-- `bcd_to_bin` from `rv3028.c` lines 12–15: decode a decimal-coded byte
(`((bcd >> 4) * 10) + (bcd & 0x0F)`, result truncated to `uint8_t`). -/
def bcd_to_bin (bcd : Nat) : Nat := ((bcd >>> 4) * 10 + (bcd &&& 15)) % 256

/-- `bin_to_bcd` from `rv3028.c` lines 17–20: encode a binary value as a
decimal-coded byte (`((bin / 10) << 4) | (bin % 10)`, result truncated to
`uint8_t`). -/
def bin_to_bcd (bin : Nat) : Nat := ((bin / 10) <<< 4 ||| bin % 10) % 256

/-- The `struct rv3028_time` wall-clock record (`rv3028.h`). -/
structure Rv3028Time where
  seconds : Nat
  minutes : Nat
  hours : Nat
  weekday : Nat
  date : Nat
  month : Nat
  year : Nat
deriving DecidableEq

/-- The `struct rv3028_alarm` record (`rv3028.h`). -/
structure Rv3028Alarm where
  seconds : Nat
  minutes : Nat
  hours : Nat
  weekday : Nat
  date : Nat
deriving DecidableEq

/-- Decoding of the 7 clock registers read by `rv3028_get_time`
(`rv3028.c` lines 90–96), with the per-field bit masks of the source. -/
def rv3028_decode_time (d : List Nat) : Rv3028Time :=
  { seconds := bcd_to_bin (byteAt d 0 &&& 0x7F)
    minutes := bcd_to_bin (byteAt d 1 &&& 0x7F)
    hours := bcd_to_bin (byteAt d 2 &&& 0x3F)
    weekday := byteAt d 3 &&& 0x07
    date := bcd_to_bin (byteAt d 4 &&& 0x3F)
    month := bcd_to_bin (byteAt d 5 &&& 0x1F)
    year := 2000 + bcd_to_bin (byteAt d 6) }

/-- `rv3028_read_reg8` (`rv3028.c` lines 34–41): one bus read transaction;
on failure the value 0 is returned silently.  Result: (value, next
transaction counter). -/
def rv3028_read_reg8 (bus : Bus) (pc : Nat) : Nat × Nat :=
  (if (bus pc).err ≠ 0 then 0 else byteAt (bus pc).data 0, pc + 1)

/-- A single register write transaction (`rv3028_write_reg`, lines 28–32):
returns the bus error code. -/
def rv3028_write_reg (bus : Bus) (pc : Nat) : Int × Nat :=
  ((bus pc).err, pc + 1)

/-- `rv3028_clear_alarm` (`rv3028.c` lines 160–165): read CONTROL2 (read
failure silently yields 0), clear the AF bit, write it back; returns the
write's error code. -/
def rv3028_clear_alarm (bus : Bus) (pc : Nat) : Int × Nat :=
  let r := rv3028_read_reg8 bus pc
  rv3028_write_reg bus r.2

/-- `rv3028_enable_alarm_interrupt` (`rv3028.c` lines 167–172): read
CONTROL2 (silent on failure), set the AIE bit, write back; returns the
write's error code. -/
def rv3028_enable_alarm_interrupt (bus : Bus) (pc : Nat) : Int × Nat :=
  let r := rv3028_read_reg8 bus pc
  rv3028_write_reg bus r.2

/-- `rv3028_get_time` (`rv3028.c` lines 79–99): one 7-byte bus read; on
failure the error is returned and the caller's struct is not used. -/
def rv3028_get_time (bus : Bus) (pc : Nat) : (Int × Rv3028Time) × Nat :=
  if (bus pc).err ≠ 0 then (((bus pc).err, rv3028_decode_time []), pc + 1)
  else ((0, rv3028_decode_time (bus pc).data), pc + 1)

/-- `rv3028_set_alarm` (`rv3028.c` lines 137–158): a single 5-byte bus
write of the BCD-encoded alarm fields; returns the write's error code. -/
def rv3028_set_alarm (bus : Bus) (pc : Nat) : Int × Nat :=
  ((bus pc).err, pc + 1)

/-- The pure alarm computation inside `rv3028_set_wakeup_time`
(`rv3028.c` lines 194–205): `target_seconds` is computed in `uint32_t`
arithmetic; hours/minutes/seconds are derived with division and modulus;
weekday and date are copied unchanged from the current time. -/
def rv3028_wakeup_alarm (t : Rv3028Time) (seconds_from_now : Nat) : Rv3028Alarm :=
  let target_seconds :=
    (t.hours * 3600 + t.minutes * 60 + t.seconds + seconds_from_now) % 4294967296
  { hours := target_seconds / 3600 % 24
    minutes := target_seconds / 60 % 60
    seconds := target_seconds % 60
    weekday := t.weekday
    date := t.date }

/-- `rv3028_set_wakeup_time` (`rv3028.c` lines 181–215): read the current
time (abort on failure), compute the alarm, write it (abort on failure),
then enable the alarm interrupt and return that result. -/
def rv3028_set_wakeup_time (seconds_from_now : Nat) (bus : Bus) (pc : Nat) : Int × Nat :=
  let rt := rv3028_get_time bus pc
  if rt.1.1 ≠ 0 then (rt.1.1, rt.2)
  else
    let _alarm := rv3028_wakeup_alarm rt.1.2 seconds_from_now
    let ra := rv3028_set_alarm bus rt.2
    if ra.1 ≠ 0 then (ra.1, ra.2)
    else rv3028_enable_alarm_interrupt bus ra.2

/-- `adaptive_scheduler_set_next_wake` (`adaptive_scheduler.c` lines
107–123): calls `rv3028_clear_alarm` with its return value discarded, then
`rv3028_set_wakeup_time(interval_ms / 1000)`, whose result it returns. -/
def adaptive_scheduler_set_next_wake (interval_ms : Nat) (bus : Bus) (pc : Nat) : Int × Nat :=
  let rc := rv3028_clear_alarm bus pc
  let rw := rv3028_set_wakeup_time (interval_ms / 1000) bus rc.2
  if rw.1 ≠ 0 then (rw.1, rw.2) else (0, rw.2)

example :
    rv3028_wakeup_alarm
      { seconds := 0, minutes := 58, hours := 23, weekday := 2, date := 15,
        month := 1, year := 2026 } (300000 / 1000) =
      { seconds := 0, minutes := 3, hours := 0, weekday := 2, date := 15 } := by decide

/-! ## BME280 sensor driver (`bme280.c`) -/

/-- `struct bme280_calib_data` (`bme280.h`).  Unsigned fields (`dig_T1`,
`dig_P1`, `dig_H1`, `dig_H3`) and signed fields are all carried as `Int`;
the loaders below produce values in the C types' ranges. -/
structure Bme280Calib where
  dig_T1 : Int
  dig_T2 : Int
  dig_T3 : Int
  dig_P1 : Int
  dig_P2 : Int
  dig_P3 : Int
  dig_P4 : Int
  dig_P5 : Int
  dig_P6 : Int
  dig_P7 : Int
  dig_P8 : Int
  dig_P9 : Int
  dig_H1 : Int
  dig_H2 : Int
  dig_H3 : Int
  dig_H4 : Int
  dig_H5 : Int
  dig_H6 : Int
deriving DecidableEq

/-- `bme280_read_reg8` (`bme280.c` lines 24–31): one bus read; a failed
read silently yields 0. -/
def bme280_read_reg8 (bus : Bus) (pc : Nat) : Nat × Nat :=
  (if (bus pc).err ≠ 0 then 0 else byteAt (bus pc).data 0, pc + 1)

/-- `bme280_read_reg16` (`bme280.c` lines 33–40): one 2-byte bus read; a
failed read silently yields 0; the value is assembled as
`(data[0] << 8) | data[1]`, i.e. the byte at the lower register offset
becomes the high-order byte. -/
def bme280_read_reg16 (bus : Bus) (pc : Nat) : Nat × Nat :=
  (if (bus pc).err ≠ 0 then 0
   else byteAt (bus pc).data 0 <<< 8 ||| byteAt (bus pc).data 1, pc + 1)

/-- `bme280_read_reg16_signed` (`bme280.c` lines 42–45): the 16-bit read
reinterpreted as `int16_t`. -/
def bme280_read_reg16_signed (bus : Bus) (pc : Nat) : Int × Nat :=
  (toI16 (bme280_read_reg16 bus pc).1, pc + 1)

/-- `bme280_read_calibration_data` (`bme280.c` lines 92–127): 20
sequential bus reads into the calibration struct; individual read
failures are not checked and the function always returns 0.  The reads
happen in source order, so the n-th read is bus transaction `pc + n`:
T1 T2 T3 P1…P9 H1 H2 H3 H4msb H4lsb H5msb H5lsb H6. -/
def bme280_read_calibration_data (bus : Bus) (pc : Nat) : (Int × Bme280Calib) × Nat :=
  ((0,
    { dig_T1 := (bme280_read_reg16 bus pc).1
      dig_T2 := (bme280_read_reg16_signed bus (pc + 1)).1
      dig_T3 := (bme280_read_reg16_signed bus (pc + 2)).1
      dig_P1 := (bme280_read_reg16 bus (pc + 3)).1
      dig_P2 := (bme280_read_reg16_signed bus (pc + 4)).1
      dig_P3 := (bme280_read_reg16_signed bus (pc + 5)).1
      dig_P4 := (bme280_read_reg16_signed bus (pc + 6)).1
      dig_P5 := (bme280_read_reg16_signed bus (pc + 7)).1
      dig_P6 := (bme280_read_reg16_signed bus (pc + 8)).1
      dig_P7 := (bme280_read_reg16_signed bus (pc + 9)).1
      dig_P8 := (bme280_read_reg16_signed bus (pc + 10)).1
      dig_P9 := (bme280_read_reg16_signed bus (pc + 11)).1
      dig_H1 := (bme280_read_reg8 bus (pc + 12)).1
      dig_H2 := (bme280_read_reg16_signed bus (pc + 13)).1
      dig_H3 := (bme280_read_reg8 bus (pc + 14)).1
      dig_H4 := (bme280_read_reg8 bus (pc + 15)).1 <<< 4 |||
                ((bme280_read_reg8 bus (pc + 16)).1 &&& 0x0F)
      dig_H5 := (bme280_read_reg8 bus (pc + 17)).1 <<< 4 |||
                ((bme280_read_reg8 bus (pc + 18)).1 >>> 4 &&& 0x0F)
      dig_H6 := toI8 (bme280_read_reg8 bus (pc + 19)).1 }),
   pc + 20)

/-- The temperature-compensation core of `bme280_read_forced`
(`bme280.c` lines 161–166): the fine-temperature value `t_fine` computed
in wrapping `int32_t` arithmetic. -/
def bme280_t_fine (c : Bme280Calib) (adc_T : Int) : Int :=
  let var1 := asr (wrap32 (wrap32 (asr adc_T 3 - wrap32 (c.dig_T1 * 2)) * c.dig_T2)) 11
  let d := wrap32 (asr adc_T 4 - c.dig_T1)
  let var2 := asr (wrap32 (asr (wrap32 (d * d)) 12 * c.dig_T3)) 14
  wrap32 (var1 + var2)

/-- The temperature output of `bme280_read_forced` (`bme280.c` line 167)
in 0.01 °C units; the source then divides this integer by `100.0f`. -/
def bme280_temperature (t_fine : Int) : Int :=
  asr (wrap32 (wrap32 (t_fine * 5) + 128)) 8

/-- The pressure-compensation intermediate `var1` as of the division
guard (`bme280.c` lines 170, 174–176). -/
def bme280_press_var1 (c : Bme280Calib) (t_fine : Int) : Int :=
  let v1 := wrap32 (asr t_fine 1 - 64000)
  let q := asr (wrap32 (asr v1 2 * asr v1 2)) 13
  let a := asr (wrap32 (c.dig_P3 * q)) 3
  let b := asr (wrap32 (c.dig_P2 * v1)) 1
  let v1b := asr (wrap32 (a + b)) 18
  asr (wrap32 (wrap32 (32768 + v1b) * c.dig_P1)) 15

/-- The pressure-compensation intermediate `var2` (`bme280.c` lines
171–173). -/
def bme280_press_var2 (c : Bme280Calib) (t_fine : Int) : Int :=
  let v1 := wrap32 (asr t_fine 1 - 64000)
  let v2 := wrap32 (asr (wrap32 (asr v1 2 * asr v1 2)) 11 * c.dig_P6)
  let v2b := wrap32 (v2 + wrap32 (wrap32 (v1 * c.dig_P5) * 2))
  wrap32 (asr v2b 2 + wrap32 (c.dig_P4 * 65536))

/-- The pressure output of `bme280_read_forced` (`bme280.c` lines
180–188), reached only when `var1 ≠ 0`, in Pa scaled by 256 (`Q24.8`);
the source then divides this integer by `256.0f`.  The `uint32_t` casts,
the unsigned comparison `p < 0x80000000` and the unsigned divisions of
the source are made explicit with `toU32`. -/
def bme280_pressure (c : Bme280Calib) (t_fine adc_P : Int) : Int :=
  let var1 := bme280_press_var1 c t_fine
  let var2 := bme280_press_var2 c t_fine
  let pU := toU32 (toU32 (toU32 (wrap32 (1048576 - adc_P)) - asr var2 12) * 3125)
  let pU2 := if pU < 2147483648
    then toU32 (wrap32 (wrap32 pU * 2)) / toU32 var1
    else toU32 (pU / toU32 var1 * 2)
  let pS := wrap32 pU2
  let v1f := asr (wrap32 (c.dig_P9 * asr (wrap32 (asr pS 3 * asr pS 3)) 13)) 12
  let v2f := asr (wrap32 (asr pS 2 * c.dig_P8)) 13
  wrap32 (toU32 (wrap32 (pS + asr (wrap32 (wrap32 (v1f + v2f) + c.dig_P7)) 4)))

/-- The humidity output of `bme280_read_forced` (`bme280.c` lines
192–203) in %RH scaled by 1024 (`Q22.10`); the source then divides this
integer by `1024.0f`. -/
def bme280_humidity (c : Bme280Calib) (t_fine adc_H : Int) : Int :=
  let v1 := wrap32 (t_fine - 76800)
  let a := asr (wrap32 (wrap32 (wrap32 (wrap32 (adc_H * 16384) -
             wrap32 (c.dig_H4 * 1048576)) - wrap32 (c.dig_H5 * v1)) + 16384)) 15
  let b1 := asr (wrap32 (v1 * c.dig_H6)) 10
  let b2 := wrap32 (asr (wrap32 (v1 * c.dig_H3)) 11 + 32768)
  let b3 := asr (wrap32 (b1 * b2)) 10
  let b := asr (wrap32 (wrap32 (wrap32 (b3 + 2097152) * c.dig_H2) + 8192)) 14
  let var2 := wrap32 (a * b)
  let v2 := wrap32 (v1 - asr (wrap32 (var2 * wrap32 (b1 * b2))) 10)
  let v3 := if v2 < 0 then 0 else v2
  let v4 := if v3 > 419430400 then 419430400 else v3
  asr v4 12

/-- The integer outputs of one compensated sample.  The C source stores
`temperature / 100.0f`, `pressure / 256.0f` and `humidity / 1024.0f` into
floats; those final exact divisions are the only steps not carried here. -/
structure Bme280Sample where
  temperature : Int
  pressure : Int
  humidity : Int
deriving DecidableEq

/-- The compensation pipeline of `bme280_read_forced` (`bme280.c` lines
156–205) on the raw ADC values: temperature is compensated first, then
the pressure guard `var1 == 0` aborts with `-EIO` (= -5) before the
division by `var1` (lines 177–179); otherwise the pressure and humidity
outputs are produced.  The division by `var1` occurs only inside
`bme280_pressure`, which is reached only in the `var1 ≠ 0` branch. -/
def bme280_compensate (c : Bme280Calib) (adc_T adc_P adc_H : Int) :
    Except Int Bme280Sample :=
  let t_fine := bme280_t_fine c adc_T
  if bme280_press_var1 c t_fine = 0 then Except.error (-5)
  else Except.ok
    { temperature := bme280_temperature t_fine
      pressure := bme280_pressure c t_fine adc_P
      humidity := bme280_humidity c t_fine adc_H }

/-- Extraction of the 20-bit pressure ADC code from the 8-byte burst read
(`bme280.c` line 156). -/
def bme280_adc_P (d : List Nat) : Int :=
  (byteAt d 0 <<< 12 ||| byteAt d 1 <<< 4 ||| byteAt d 2 >>> 4 : Nat)

/-- Extraction of the 20-bit temperature ADC code (`bme280.c` line 157). -/
def bme280_adc_T (d : List Nat) : Int :=
  (byteAt d 3 <<< 12 ||| byteAt d 4 <<< 4 ||| byteAt d 5 >>> 4 : Nat)

/-- Extraction of the 16-bit humidity ADC code (`bme280.c` line 158). -/
def bme280_adc_H (d : List Nat) : Int :=
  (byteAt d 6 <<< 8 ||| byteAt d 7 : Nat)

/-- `bme280_read_forced` (`bme280.c` lines 129–206) at the bus level:
the forced-measurement trigger write and the 8-byte burst read each abort
with `-EIO` on failure; then the compensation pipeline runs on the
decoded ADC codes with the given calibration data. -/
def bme280_read_forced (c : Bme280Calib) (bus : Bus) (pc : Nat) :
    Except Int Bme280Sample × Nat :=
  if (bus pc).err ≠ 0 then (Except.error (-5), pc + 1)
  else if (bus (pc + 1)).err ≠ 0 then (Except.error (-5), pc + 2)
  else
    let d := (bus (pc + 1)).data
    (bme280_compensate c (bme280_adc_T d) (bme280_adc_P d) (bme280_adc_H d), pc + 2)

/-! ## Concrete bus traces and calibration vectors used as inputs below -/

/-- A bus returning the calibration byte 0x34 at the lower register
offset (e.g. 0x88) and 0x12 at the following offset (0x89). -/
def c4_bus : Bus := fun _ => { err := 0, data := [0x34, 0x12] }

/-- The all-zero calibration vector (which drives the pressure `var1` to
zero because `dig_P1 = 0`). -/
def calibAllZero : Bme280Calib :=
  { dig_T1 := 0, dig_T2 := 0, dig_T3 := 0, dig_P1 := 0, dig_P2 := 0, dig_P3 := 0,
    dig_P4 := 0, dig_P5 := 0, dig_P6 := 0, dig_P7 := 0, dig_P8 := 0, dig_P9 := 0,
    dig_H1 := 0, dig_H2 := 0, dig_H3 := 0, dig_H4 := 0, dig_H5 := 0, dig_H6 := 0 }

/-- A bus trace on which the write transaction of `rv3028_clear_alarm`
(transaction 1) fails while every other transaction succeeds, the time
read returning 23:58:00 weekday 2 date 15 in BCD. -/
def c6_bus : Bus := fun i =>
  if i = 1 then { err := -5, data := [] }
  else { err := 0, data := [0x00, 0x58, 0x23, 2, 0x15, 0x01, 0x26] }

/-- A bus trace on which the current-time read (transaction 2) fails and
all other transactions succeed. -/
def c6w_bus : Bus := fun i =>
  if i = 2 then { err := -5, data := [] }
  else { err := 0, data := [0, 0, 0, 0, 0, 0, 0] }

/-- A bus trace on which every transaction fails. -/
def c8_bus : Bus := fun _ => { err := -5, data := [] }

/-- A calibration vector with `dig_P1 = 1` and every other coefficient
zero: the pressure `var1` evaluates to 1, so compensation succeeds. -/
def calibP1 : Bme280Calib :=
  { dig_T1 := 0, dig_T2 := 0, dig_T3 := 0, dig_P1 := 1, dig_P2 := 0, dig_P3 := 0,
    dig_P4 := 0, dig_P5 := 0, dig_P6 := 0, dig_P7 := 0, dig_P8 := 0, dig_P9 := 0,
    dig_H1 := 0, dig_H2 := 0, dig_H3 := 0, dig_H4 := 0, dig_H5 := 0, dig_H6 := 0 }

/-! ## Claim C1 -/

set_option maxHeartbeats 2000000 in
/-- Claim C1: for every battery millivolt value and every current power
tier, one call to `adaptive_scheduler_get_tier` returns a tier whose
ordinal differs from the current tier's ordinal by at most 1 — no tier is
ever skipped in either direction in one call. -/
theorem c1_tier_step_at_most_one (battery_mv : Nat) (cur : PowerTier) :
    (adaptive_scheduler_get_tier battery_mv cur).ord ≤ cur.ord + 1 ∧
    cur.ord ≤ (adaptive_scheduler_get_tier battery_mv cur).ord + 1 := by
  cases cur <;> cases hnt : naive_tier battery_mv <;>
    (unfold adaptive_scheduler_get_tier
     rw [hnt]
     split_ifs <;> simp_all [PowerTier.ord])

/-! ## Claim C3 -/

/-- Claim C3: starting from `POWER_TIER_NORMAL`, feeding
`adaptive_scheduler_get_tier` the battery readings 4000, 3700, 3550,
3550, 3300, 3650 mV in sequence (each result becoming the next call's
current tier) produces the tier sequence Normal, Normal, Conserve,
Conserve, Reserve, Conserve. -/
theorem c3_example_trace :
    [4000, 3700, 3550, 3550, 3300, 3650].scanl
        (fun cur mv => adaptive_scheduler_get_tier mv cur) PowerTier.normal =
      [.normal, .normal, .normal, .conserve, .conserve, .reserve, .conserve] := by
  decide

/-! ## Claim C7 -/

/-- Claim C7 counterexample: `adaptive_scheduler_get_tier` is not free of
side effects — at battery 3300 mV with stored tier Normal, the call
itself changes the static `current_tier` (to Conserve), so the stored
state of the module does not stay unchanged. -/
theorem c7_counterexample :
    (adaptive_scheduler_get_tier_call 3300 ⟨PowerTier.normal⟩).2 ≠
      ⟨PowerTier.normal⟩ := by decide

/-- Claim C7 (amended): the tier evaluation is a deterministic function
of battery millivolts and the stored current tier, but the call itself
records the result in the module-static `current_tier`: after every
call the stored tier equals the returned tier, and the stored state is
unchanged exactly when the evaluation returns the tier it started
from. -/
theorem c7_state_equals_returned_tier (battery_mv : Nat) (st : SchedulerState) :
    (adaptive_scheduler_get_tier_call battery_mv st).2.current_tier =
      (adaptive_scheduler_get_tier_call battery_mv st).1 ∧
    (adaptive_scheduler_get_tier_call battery_mv st).1 =
      adaptive_scheduler_get_tier battery_mv st.current_tier ∧
    ((adaptive_scheduler_get_tier_call battery_mv st).2 = st ↔
      adaptive_scheduler_get_tier battery_mv st.current_tier = st.current_tier) := by
  obtain ⟨c⟩ := st
  by_cases h : adaptive_scheduler_get_tier battery_mv c = c <;>
    simp_all [adaptive_scheduler_get_tier_call]

/-! ## Claim C9 -/

theorem bcd_roundtrip_aux : ∀ v < 100, bcd_to_bin (bin_to_bcd v) = v := by decide

/-- Claim C9: the decimal-coded-byte wire encoding round-trips — for
every `v` with `0 ≤ v ≤ 99`, `bcd_to_bin (bin_to_bcd v) = v`. -/
theorem c9_bcd_roundtrip (v : Nat) (h : v ≤ 99) :
    bcd_to_bin (bin_to_bcd v) = v :=
  bcd_roundtrip_aux v (Nat.lt_succ_of_le h)

/-- Claim C9 witness: the round trip at the concrete value 59. -/
theorem c9_witness : bcd_to_bin (bin_to_bcd 59) = 59 :=
  c9_bcd_roundtrip 59 (by decide)

/-! ## Claim C2 -/

/-- Claim C2: for every wall-clock time and interval (within the
`uint32_t` range of `target_seconds`, which cannot overflow for decoded
clock fields), `rv3028_set_wakeup_time` computes the alarm as
`target_seconds = hours*3600 + minutes*60 + seconds + seconds_from_now`
with hours `= target/3600 mod 24`, minutes `= target/60 mod 60`, seconds
`= target mod 60`, weekday and date copied unchanged; in particular
23:58:00, weekday 2, date 15 with a 300000 ms interval yields alarm
00:03:00, weekday 2, date 15. -/
theorem c2_wakeup_alarm_formula :
    (∀ (t : Rv3028Time) (secs : Nat),
        t.hours * 3600 + t.minutes * 60 + t.seconds + secs < 4294967296 →
        rv3028_wakeup_alarm t secs =
          { hours := (t.hours * 3600 + t.minutes * 60 + t.seconds + secs) / 3600 % 24
            minutes := (t.hours * 3600 + t.minutes * 60 + t.seconds + secs) / 60 % 60
            seconds := (t.hours * 3600 + t.minutes * 60 + t.seconds + secs) % 60
            weekday := t.weekday
            date := t.date }) ∧
    rv3028_wakeup_alarm
        { seconds := 0, minutes := 58, hours := 23, weekday := 2, date := 15,
          month := 1, year := 2026 } (300000 / 1000) =
      { seconds := 0, minutes := 3, hours := 0, weekday := 2, date := 15 } := by
  constructor
  · intro t secs h
    unfold rv3028_wakeup_alarm
    rw [Nat.mod_eq_of_lt h]
  · decide

/-- Claim C2 witness: the general alarm formula applied at the concrete
time 23:58:00, weekday 2, date 15, with 300 seconds from now. -/
theorem c2_witness :
    rv3028_wakeup_alarm
        { seconds := 0, minutes := 58, hours := 23, weekday := 2, date := 15,
          month := 1, year := 2026 } 300 =
      { hours := (23 * 3600 + 58 * 60 + 0 + 300) / 3600 % 24
        minutes := (23 * 3600 + 58 * 60 + 0 + 300) / 60 % 60
        seconds := (23 * 3600 + 58 * 60 + 0 + 300) % 60
        weekday := 2
        date := 15 } :=
  c2_wakeup_alarm_formula.1
    { seconds := 0, minutes := 58, hours := 23, weekday := 2, date := 15,
      month := 1, year := 2026 } 300 (by norm_num)

/-! ## Claim C4 -/

/-- Claim C4 evaluation at the failing input: with the byte 0x34 at the
lower register offset and 0x12 at offset+1, `bme280_read_reg16` assembles
0x3412 — the byte at the lower offset becomes the HIGH-order byte
(big-endian) — and not the little-endian value 0x1234 that the claim
(and the sensor's register layout) requires. -/
theorem c4_reg16_assembles_big_endian :
    (bme280_read_reg16 c4_bus 0).1 = 0x3412 ∧
    (bme280_read_reg16 c4_bus 0).1 ≠ 0x1234 := by decide

/-! ## Claim C5 -/

/-- Claim C5: for every calibration vector and raw sample for which the
pressure intermediate `var1` is zero, the compensation pipeline of
`bme280_read_forced` returns the `-EIO` error; the division by `var1`
(inside `bme280_pressure`) is only reachable in the `var1 ≠ 0` branch of
`bme280_compensate`. -/
theorem c5_pressure_div_zero_guard (c : Bme280Calib) (adc_T adc_P adc_H : Int)
    (h : bme280_press_var1 c (bme280_t_fine c adc_T) = 0) :
    bme280_compensate c adc_T adc_P adc_H = Except.error (-5) := by
  unfold bme280_compensate
  simp [h]

/-- Claim C5 witness: the all-zero calibration vector with raw sample
(0, 0, 0) makes `var1 = 0`, and compensation returns the error. -/
theorem c5_witness :
    bme280_compensate calibAllZero 0 0 0 = Except.error (-5) :=
  c5_pressure_div_zero_guard calibAllZero 0 0 0 (by decide)

/-! ## Claim C6 -/

/-- Claim C6 counterexample: on `c6_bus` the bus write performed while
clearing the pending alarm flag (transaction 1) fails, yet
`adaptive_scheduler_set_next_wake` carries on through all remaining steps
(6 transactions consumed) and returns success 0 — so a bus failure during
the operation does not always abort it with an error. -/
theorem c6_counterexample :
    (c6_bus 1).err ≠ 0 ∧
    1 < (adaptive_scheduler_set_next_wake 300000 c6_bus 0).2 ∧
    (adaptive_scheduler_set_next_wake 300000 c6_bus 0).1 = 0 := by decide

/-- Claim C6 (amended): failures of the current-time read (transaction
pc+2), of the alarm-field write (pc+3), and of the interrupt-enable write
(pc+5) abort `adaptive_scheduler_set_next_wake` at that step — the error
is returned and later bus transactions are not performed; but a failure
while clearing the pending alarm flag (transactions pc, pc+1), or of the
silent CONTROL2 read inside interrupt enable (pc+4), is ignored. -/
theorem c6_abort_propagation (bus : Bus) (pc interval_ms : Nat) :
    ((bus (pc + 2)).err ≠ 0 →
      adaptive_scheduler_set_next_wake interval_ms bus pc = ((bus (pc + 2)).err, pc + 3)) ∧
    ((bus (pc + 2)).err = 0 → (bus (pc + 3)).err ≠ 0 →
      adaptive_scheduler_set_next_wake interval_ms bus pc = ((bus (pc + 3)).err, pc + 4)) ∧
    ((bus (pc + 2)).err = 0 → (bus (pc + 3)).err = 0 →
      adaptive_scheduler_set_next_wake interval_ms bus pc = ((bus (pc + 5)).err, pc + 6)) := by
  unfold adaptive_scheduler_set_next_wake rv3028_set_wakeup_time rv3028_clear_alarm
    rv3028_enable_alarm_interrupt rv3028_get_time rv3028_set_alarm rv3028_read_reg8
    rv3028_write_reg
  have e2 : pc + 1 + 1 = pc + 2 := rfl
  have e3 : pc + 1 + 1 + 1 = pc + 3 := rfl
  have e4 : pc + 1 + 1 + 1 + 1 = pc + 4 := rfl
  have e5 : pc + 1 + 1 + 1 + 1 + 1 = pc + 5 := rfl
  have e6 : pc + 1 + 1 + 1 + 1 + 1 + 1 = pc + 6 := rfl
  rw [e2, e3, e4, e5, e6]
  refine ⟨?_, ?_, ?_⟩ <;> intros <;> simp_all

/-- Claim C6 witness: on `c6w_bus` the failed time read aborts the
operation after 3 transactions with its error code. -/
theorem c6_witness :
    adaptive_scheduler_set_next_wake 300000 c6w_bus 0 = ((c6w_bus 2).err, 0 + 3) :=
  (c6_abort_propagation c6w_bus 0 300000).1 (by decide)

/-! ## Claim C8 -/

set_option maxHeartbeats 1000000 in
/-- Claim C8: `bme280_read_calibration_data` returns success (0) for
every pattern of individual bus-read failures, consuming all 20 read
transactions; each coefficient whose bus read(s) failed is stored as
zero (for `dig_H4` and `dig_H5`, which are assembled from two separate
byte reads, both reads failing yields zero). -/
theorem c8_calibration_load_tolerates_failures (bus : Bus) (pc : Nat) :
    (bme280_read_calibration_data bus pc).1.1 = 0 ∧
    (bme280_read_calibration_data bus pc).2 = pc + 20 ∧
    ((bus pc).err ≠ 0 → ((bme280_read_calibration_data bus pc).1.2).dig_T1 = 0) ∧
    ((bus (pc + 1)).err ≠ 0 → ((bme280_read_calibration_data bus pc).1.2).dig_T2 = 0) ∧
    ((bus (pc + 2)).err ≠ 0 → ((bme280_read_calibration_data bus pc).1.2).dig_T3 = 0) ∧
    ((bus (pc + 3)).err ≠ 0 → ((bme280_read_calibration_data bus pc).1.2).dig_P1 = 0) ∧
    ((bus (pc + 4)).err ≠ 0 → ((bme280_read_calibration_data bus pc).1.2).dig_P2 = 0) ∧
    ((bus (pc + 5)).err ≠ 0 → ((bme280_read_calibration_data bus pc).1.2).dig_P3 = 0) ∧
    ((bus (pc + 6)).err ≠ 0 → ((bme280_read_calibration_data bus pc).1.2).dig_P4 = 0) ∧
    ((bus (pc + 7)).err ≠ 0 → ((bme280_read_calibration_data bus pc).1.2).dig_P5 = 0) ∧
    ((bus (pc + 8)).err ≠ 0 → ((bme280_read_calibration_data bus pc).1.2).dig_P6 = 0) ∧
    ((bus (pc + 9)).err ≠ 0 → ((bme280_read_calibration_data bus pc).1.2).dig_P7 = 0) ∧
    ((bus (pc + 10)).err ≠ 0 → ((bme280_read_calibration_data bus pc).1.2).dig_P8 = 0) ∧
    ((bus (pc + 11)).err ≠ 0 → ((bme280_read_calibration_data bus pc).1.2).dig_P9 = 0) ∧
    ((bus (pc + 12)).err ≠ 0 → ((bme280_read_calibration_data bus pc).1.2).dig_H1 = 0) ∧
    ((bus (pc + 13)).err ≠ 0 → ((bme280_read_calibration_data bus pc).1.2).dig_H2 = 0) ∧
    ((bus (pc + 14)).err ≠ 0 → ((bme280_read_calibration_data bus pc).1.2).dig_H3 = 0) ∧
    ((bus (pc + 15)).err ≠ 0 → (bus (pc + 16)).err ≠ 0 →
      ((bme280_read_calibration_data bus pc).1.2).dig_H4 = 0) ∧
    ((bus (pc + 17)).err ≠ 0 → (bus (pc + 18)).err ≠ 0 →
      ((bme280_read_calibration_data bus pc).1.2).dig_H5 = 0) ∧
    ((bus (pc + 19)).err ≠ 0 → ((bme280_read_calibration_data bus pc).1.2).dig_H6 = 0) := by
  refine ⟨rfl, rfl, ?_, ?_, ?_, ?_, ?_, ?_, ?_, ?_, ?_, ?_, ?_, ?_, ?_, ?_, ?_, ?_, ?_, ?_⟩ <;>
    (intros
     simp_all [bme280_read_calibration_data, bme280_read_reg16_signed,
       bme280_read_reg16, bme280_read_reg8, toI16, toI8])

/-- Claim C8 witness: with every bus read failing, the load still
returns success and every coefficient is zero. -/
theorem c8_witness :
    (bme280_read_calibration_data c8_bus 0).1.1 = 0 ∧
    ((bme280_read_calibration_data c8_bus 0).1.2).dig_T1 = 0 ∧
    ((bme280_read_calibration_data c8_bus 0).1.2).dig_T2 = 0 ∧
    ((bme280_read_calibration_data c8_bus 0).1.2).dig_T3 = 0 ∧
    ((bme280_read_calibration_data c8_bus 0).1.2).dig_P1 = 0 ∧
    ((bme280_read_calibration_data c8_bus 0).1.2).dig_P2 = 0 ∧
    ((bme280_read_calibration_data c8_bus 0).1.2).dig_P3 = 0 ∧
    ((bme280_read_calibration_data c8_bus 0).1.2).dig_P4 = 0 ∧
    ((bme280_read_calibration_data c8_bus 0).1.2).dig_P5 = 0 ∧
    ((bme280_read_calibration_data c8_bus 0).1.2).dig_P6 = 0 ∧
    ((bme280_read_calibration_data c8_bus 0).1.2).dig_P7 = 0 ∧
    ((bme280_read_calibration_data c8_bus 0).1.2).dig_P8 = 0 ∧
    ((bme280_read_calibration_data c8_bus 0).1.2).dig_P9 = 0 ∧
    ((bme280_read_calibration_data c8_bus 0).1.2).dig_H1 = 0 ∧
    ((bme280_read_calibration_data c8_bus 0).1.2).dig_H2 = 0 ∧
    ((bme280_read_calibration_data c8_bus 0).1.2).dig_H3 = 0 ∧
    ((bme280_read_calibration_data c8_bus 0).1.2).dig_H4 = 0 ∧
    ((bme280_read_calibration_data c8_bus 0).1.2).dig_H5 = 0 ∧
    ((bme280_read_calibration_data c8_bus 0).1.2).dig_H6 = 0 := by
  obtain ⟨h1, h2, h3, h4, h5, h6, h7, h8, h9, h10, h11, h12, h13, h14, h15, h16,
    h17, h18, h19, h20⟩ := c8_calibration_load_tolerates_failures c8_bus 0
  exact ⟨h1, h3 (by decide), h4 (by decide), h5 (by decide), h6 (by decide),
    h7 (by decide), h8 (by decide), h9 (by decide), h10 (by decide),
    h11 (by decide), h12 (by decide), h13 (by decide), h14 (by decide),
    h15 (by decide), h16 (by decide), h17 (by decide),
    h18 (by decide) (by decide), h19 (by decide) (by decide), h20 (by decide)⟩

/-! ## Claim C10 -/

theorem asr12_clamp_bounds (y : Int) :
    0 ≤ asr (if (if y < 0 then 0 else y) > 419430400 then 419430400
             else if y < 0 then 0 else y) 12 ∧
    asr (if (if y < 0 then 0 else y) > 419430400 then 419430400
         else if y < 0 then 0 else y) 12 ≤ 102400 := by
  have hz : (0 : Int) ≤ (if (if y < 0 then 0 else y) > 419430400 then 419430400
      else if y < 0 then 0 else y) ∧
      (if (if y < 0 then 0 else y) > 419430400 then (419430400 : Int)
       else if y < 0 then 0 else y) ≤ 419430400 := by
    split_ifs <;> omega
  unfold asr
  constructor
  · exact Int.ediv_nonneg hz.1 (by norm_num)
  · calc (if (if y < 0 then 0 else y) > 419430400 then (419430400 : Int)
        else if y < 0 then 0 else y) / 2 ^ 12
        ≤ 419430400 / 2 ^ 12 := Int.ediv_le_ediv (by norm_num) hz.2
      _ = 102400 := by decide

theorem bme280_humidity_bounds (c : Bme280Calib) (t_fine adc_H : Int) :
    0 ≤ bme280_humidity c t_fine adc_H ∧ bme280_humidity c t_fine adc_H ≤ 102400 := by
  simp only [bme280_humidity]
  exact asr12_clamp_bounds _

/-- Claim C10: whenever the compensation pipeline of `bme280_read_forced`
produces a sample, its humidity intermediate (clamped to
`[0, 419430400]` and right-shifted by 12) lies in `[0, 102400]`, so the
final humidity value — that integer divided by 1024 — lies in the closed
interval `[0, 100]` %RH. -/
theorem c10_humidity_in_range (c : Bme280Calib) (adc_T adc_P adc_H : Int)
    (s : Bme280Sample) (h : bme280_compensate c adc_T adc_P adc_H = Except.ok s) :
    0 ≤ s.humidity ∧ s.humidity ≤ 102400 ∧
    (0 : ℚ) ≤ (s.humidity : ℚ) / 1024 ∧ (s.humidity : ℚ) / 1024 ≤ 100 := by
  have hs : s.humidity = bme280_humidity c (bme280_t_fine c adc_T) adc_H := by
    simp only [bme280_compensate] at h
    by_cases hv : bme280_press_var1 c (bme280_t_fine c adc_T) = 0
    · rw [if_pos hv] at h
      exact absurd h (by simp)
    · rw [if_neg hv] at h
      injection h with h2
      rw [← h2]
  obtain ⟨hb1, hb2⟩ := bme280_humidity_bounds c (bme280_t_fine c adc_T) adc_H
  rw [hs]
  refine ⟨hb1, hb2, ?_, ?_⟩
  · apply div_nonneg _ (by norm_num)
    exact_mod_cast hb1
  · rw [div_le_iff₀ (by norm_num : (0 : ℚ) < 1024)]
    have hc : (bme280_humidity c (bme280_t_fine c adc_T) adc_H : ℚ) ≤ 102400 := by
      exact_mod_cast hb2
    linarith

/-- Claim C10 witness: with `calibP1` and raw sample (0, 0, 0) the
pipeline succeeds with humidity intermediate 0, which is in range. -/
theorem c10_witness :
    0 ≤ (Bme280Sample.mk 0 (-2036334592) 0).humidity ∧
    (Bme280Sample.mk 0 (-2036334592) 0).humidity ≤ 102400 ∧
    (0 : ℚ) ≤ ((Bme280Sample.mk 0 (-2036334592) 0).humidity : ℚ) / 1024 ∧
    ((Bme280Sample.mk 0 (-2036334592) 0).humidity : ℚ) / 1024 ≤ 100 :=
  c10_humidity_in_range calibP1 0 0 0 (Bme280Sample.mk 0 (-2036334592) 0) (by rfl)
